import Mathlib

/-!
Verification of the Stock Replenishment Decision and Command Pipeline.

Shallow embedding of the repository sources:
  - src/real_soap_service.py (DecisionEngine, StockUpdateServiceImpl)
  - src/my-azure-function/StockEventProcessor/stock_function_logic.py
    (ServerlessDecisionEngine, OrderCommandGenerator, process_events)
  - src/my-azure-function/StockEventProcessor/__init__.py (main)

Python ints are modelled as ZZ, Python floats as QQ (the arithmetic the
engines perform on them -- comparison, subtraction, multiplication by 7 --
is exact on floats for the relevant ranges, so the rational model is
faithful).  Python dict payloads are modelled as records of optional
`PyVal` values; `float(...)`/`int(...)` conversions that can raise are
modelled as `Except String`.
-/

/-- Rounding of the fraction n / d (with d positive) to the nearest integer,
ties to even: the rounding Python uses when formatting a float value with a
fixed number of decimal places.  Stated on numerator and denominator so that
it evaluates by pure integer arithmetic. -/
def roundHalfEvenND (n d : ℤ) : ℤ :=
  let f : ℤ := Int.ediv n d
  let r2 : ℤ := 2 * (n - f * d)
  if r2 < d then f
  else if d < r2 then f + 1
  else if f % 2 = 0 then f else f + 1

/-- Python `f"... :.1f"` formatting of a value: one decimal digit, rounding
half to even.  Used by every `reason` string of both decision engines. -/
def fmt1 (q : ℚ) : String :=
  let n := roundHalfEvenND (q.num * 10) (q.den : ℤ)
  let sign := if n < 0 then "-" else ""
  sign ++ Nat.repr (n.natAbs / 10) ++ "." ++ Nat.repr (n.natAbs % 10)

def padZeros : ℕ → String → String
  | 0, s => s
  | n + 1, s => padZeros n ("0" ++ s)

def reprFloatAux (d : ℕ) : ℕ → ℕ → ℕ
  | 0, k => k
  | n + 1, k => if 10 ^ k % d = 0 then k else reprFloatAux d n (k + 1)

/-- Python `str()` of a float whose value has a finite decimal expansion:
the shortest decimal form with at least one digit after the point
(`str(2.0) = "2.0"`, `str(1.33) = "1.33"`).  Only such values appear in
the embedded reason strings. -/
def reprFloat (q : ℚ) : String :=
  let k := max 1 (reprFloatAux q.den 18 0)
  let n := roundHalfEvenND (q.num * (10 : ℤ) ^ k) (q.den : ℤ)
  let sign := if n < 0 then "-" else ""
  let fs := Nat.repr (n.natAbs % 10 ^ k)
  sign ++ Nat.repr (n.natAbs / 10 ^ k) ++ "." ++ padZeros (k - fs.length) fs

deriving instance DecidableEq for Except

/-- A value held in a Python event dict: an int, a float, or a string. -/
inductive PyVal
  | int (n : ℤ)
  | float (q : ℚ)
  | str (s : String)
deriving DecidableEq

def digitsToNat (l : List Char) : ℕ :=
  l.foldl (fun a c => a * 10 + (c.toNat - 48)) 0

/-- Parse of a plain decimal literal, the forms of numeric string the
payloads at hand can carry (Python `float()` accepts these and more).  The
value is built with `Rat.divInt` so it evaluates by integer arithmetic. -/
def parseDecimal (s : String) : Option ℚ :=
  let cs := s.toList
  let sign : ℤ := if cs.head? = some '-' then -1 else 1
  let cs := if cs.head? = some '-' ∨ cs.head? = some '+' then cs.tail else cs
  let ip := cs.takeWhile Char.isDigit
  let rest := cs.dropWhile Char.isDigit
  match rest with
  | [] => if ip.isEmpty then none else some (Rat.divInt (sign * digitsToNat ip) 1)
  | '.' :: fp =>
    if fp.all Char.isDigit ∧ ¬(ip.isEmpty ∧ fp.isEmpty) then
      some (Rat.divInt (sign * (digitsToNat ip * 10 ^ fp.length + digitsToNat fp))
        ((10 : ℤ) ^ fp.length))
    else none
  | _ => none

/-- Parse of an integer literal (Python `int()` on a string rejects any
fractional part). -/
def parseInt (s : String) : Option ℤ :=
  let cs := s.toList
  let sign : ℤ := if cs.head? = some '-' then -1 else 1
  let cs := if cs.head? = some '-' ∨ cs.head? = some '+' then cs.tail else cs
  if cs.isEmpty ∨ ¬cs.all Char.isDigit then none
  else some (sign * digitsToNat cs)

/-- Python `float(v)`: the identity on numerics, a parse on strings, raising
(modelled as `Except.error`) on a non-numeric string. -/
def pyFloat : PyVal → Except String ℚ
  | .int n => .ok (n : ℚ)
  | .float q => .ok q
  | .str s =>
    match parseDecimal s with
    | some q => .ok q
    | none => .error ("could not convert string to float: " ++ s)

/-- Truncation of a rational toward zero, as Python `int()` on a float. -/
def qtrunc (q : ℚ) : ℤ := Int.tdiv q.num (q.den : ℤ)

/-- Python `int(v)`: identity on ints, truncation on floats, a parse on
strings, raising on anything else. -/
def pyInt : PyVal → Except String ℤ
  | .int n => .ok n
  | .float q => .ok (qtrunc q)
  | .str s =>
    match parseInt s with
    | some n => .ok n
    | none => .error ("invalid literal for int with base 10: " ++ s)

/-- Result dict of `DecisionEngine.evaluate` in real_soap_service.py:
keys should_order, priority, order_quantity, reason.  The Python value
`None` for priority is `Option.none`. -/
structure SoapDecision where
  should_order : Bool
  priority : Option String
  order_quantity : ℤ
  reason : String
deriving DecidableEq

namespace DecisionEngine

def THRESHOLD_CRITICAL : ℚ := 2

def THRESHOLD_URGENT : ℚ := 1

def RESTOCK_DAYS : ℤ := 7

/-- DecisionEngine.evaluate of real_soap_service.py (lines 103-122).  The
`int(calc_quantity)` of the source is the identity here because
`calc_quantity` is already an integer (int minus int). -/
def evaluate (days_of_supply : ℚ) (daily_consumption current_stock : ℤ) : SoapDecision :=
  if days_of_supply < THRESHOLD_CRITICAL then
    let target_stock := daily_consumption * RESTOCK_DAYS
    let calc_quantity := target_stock - current_stock
    let oq := max calc_quantity daily_consumption
    if days_of_supply < THRESHOLD_URGENT then
      { should_order := true, priority := some "URGENT", order_quantity := oq,
        reason := "CRITICAL: " ++ fmt1 days_of_supply ++ " days (< 1.0)" }
    else
      { should_order := true, priority := some "HIGH", order_quantity := oq,
        reason := "LOW STOCK: " ++ fmt1 days_of_supply ++ " days (< 2.0)" }
  else
    { should_order := false, priority := none, order_quantity := 0,
      reason := "Adequate stock: " ++ fmt1 days_of_supply ++ " days" }

end DecisionEngine

/-- An InventoryLowEvent payload as the serverless engine reads it: the
fields accessed via `event.get(...)`, each possibly absent. -/
structure InventoryEvent where
  eventId : Option String := none
  hospitalId : Option String := none
  productCode : Option String := none
  currentStockUnits : Option PyVal := none
  dailyConsumptionUnits : Option PyVal := none
  daysOfSupply : Option PyVal := none
  threshold : Option PyVal := none
deriving DecidableEq

/-- Result dict of `ServerlessDecisionEngine.evaluate` in
stock_function_logic.py: it additionally echoes days_of_supply and
threshold_used. -/
structure ServerlessDecision where
  should_order : Bool
  priority : Option String
  order_quantity : ℤ
  reason : String
  days_of_supply : ℚ
  threshold_used : ℚ
deriving DecidableEq

namespace ServerlessDecisionEngine

def THRESHOLD_CRITICAL : ℚ := 2

def THRESHOLD_URGENT : ℚ := 1

def RESTOCK_DAYS : ℤ := 7

/-- ServerlessDecisionEngine.evaluate of stock_function_logic.py (lines
36-85): defaults 999 for a missing daysOfSupply, THRESHOLD_CRITICAL for a
missing threshold, 0 for missing stock and consumption; the `float()` and
`int()` conversions can raise, modelled by `Except.error`. -/
def evaluate (event : InventoryEvent) : Except String ServerlessDecision :=
  match pyFloat (event.daysOfSupply.getD (.int 999)) with
  | .error e => .error e
  | .ok days_of_supply =>
  match pyFloat (event.threshold.getD (.float THRESHOLD_CRITICAL)) with
  | .error e => .error e
  | .ok threshold =>
  match pyInt (event.dailyConsumptionUnits.getD (.int 0)) with
  | .error e => .error e
  | .ok daily_consumption =>
  match pyInt (event.currentStockUnits.getD (.int 0)) with
  | .error e => .error e
  | .ok current_stock =>
  if days_of_supply < threshold then
    let target_stock := daily_consumption * RESTOCK_DAYS
    let oq := max (target_stock - current_stock) daily_consumption
    if days_of_supply < THRESHOLD_URGENT then
      .ok { should_order := true, priority := some "URGENT", order_quantity := oq,
            reason := "CRITICAL: Only " ++ fmt1 days_of_supply
              ++ " days of supply remaining (< 1.0 day)",
            days_of_supply := days_of_supply, threshold_used := threshold }
    else
      .ok { should_order := true, priority := some "HIGH", order_quantity := oq,
            reason := "LOW STOCK: " ++ fmt1 days_of_supply
              ++ " days of supply remaining (< " ++ reprFloat threshold ++ " days)",
            days_of_supply := days_of_supply, threshold_used := threshold }
  else
    .ok { should_order := false, priority := none, order_quantity := 0,
          reason := "Stock levels adequate: " ++ fmt1 days_of_supply ++ " days of supply",
          days_of_supply := days_of_supply, threshold_used := threshold }

end ServerlessDecisionEngine

/-- An OrderCreationCommand payload as built by
OrderCommandGenerator.create_command.  Timestamps are modelled as integer
day numbers (the source renders them as ISO strings; nothing in the logic
reads them back). -/
structure OrderCommand where
  commandId : String
  commandType : String
  orderId : String
  hospitalId : Option String
  productCode : Option String
  orderQuantity : ℤ
  priority : Option String
  estimatedDeliveryDate : ℤ
  warehouseId : String
  timestamp : ℤ
deriving DecidableEq

namespace OrderCommandGenerator

def DEFAULT_WAREHOUSE : String := "CENTRAL-WAREHOUSE"

/-- OrderCommandGenerator.create_command of stock_function_logic.py (lines
100-144).  The source generates command_id and order_id from uuid4 when the
caller passes none; here the generated values are taken as explicit
arguments, and `now` is the current day number. -/
def create_command (event : InventoryEvent) (decision : ServerlessDecision)
    (command_id order_id : String) (now : ℤ) : OrderCommand :=
  let delivery_days : ℤ :=
    if decision.priority = some "URGENT" then 1
    else if decision.priority = some "HIGH" then 2
    else 5
  { commandId := command_id, commandType := "CreateOrder", orderId := order_id,
    hospitalId := event.hospitalId, productCode := event.productCode,
    orderQuantity := decision.order_quantity, priority := decision.priority,
    estimatedDeliveryDate := now + delivery_days,
    warehouseId := DEFAULT_WAREHOUSE, timestamp := now }

end OrderCommandGenerator

/-- Loop body of process_events in stock_function_logic.py (lines 151-216):
events are visited in arrival order; each event is evaluated and, when the
decision triggers, exactly one command is appended to the accumulator.  An
exception raised while evaluating an event (a malformed entry) propagates
and aborts the whole loop: there is no per-event handler in the source.
`ids` supplies the uuid-generated pair (command_id, order_id) for the k-th
triggered command. -/
def processEventsGo (ids : ℕ → String × String) (now : ℤ) :
    List InventoryEvent → ℕ → List OrderCommand → Except String (List OrderCommand)
  | [], _, acc => .ok acc
  | e :: rest, k, acc =>
    match ServerlessDecisionEngine.evaluate e with
    | .error msg => .error msg
    | .ok d =>
      if d.should_order then
        processEventsGo ids now rest (k + 1)
          (acc ++ [OrderCommandGenerator.create_command e d (ids k).1 (ids k).2 now])
      else
        processEventsGo ids now rest k acc

/-- process_events of stock_function_logic.py: the outbound batch is the
accumulated command list, returned once after the loop. -/
def process_events (ids : ℕ → String × String) (now : ℤ)
    (events : List InventoryEvent) : Except String (List OrderCommand) :=
  processEventsGo ids now events 0 []

/-- An inbound Event Hub entry as read by the deployed Azure handler: a body
whose json.loads either fails or yields an event dict. -/
inductive RawEvent
  | malformed (body : String)
  | parsed (data : InventoryEvent)
deriving DecidableEq

/-- The command message the deployed handler sends to the output hub. -/
structure CommandMsg where
  commandId : String
  commandType : String
  orderId : String
  details : InventoryEvent
deriving DecidableEq

/-- A row of the orders table as the deployed handler inserts it. -/
structure ServerOrderRow where
  order_id : String
  hospital_id : Option String
  product_code : Option String
  order_quantity : ℤ
  priority : String
deriving DecidableEq

namespace StockEventProcessor

/-- Loop of main in StockEventProcessor/init (lines 32-76).  Each event is
wrapped in its own try/except, so a malformed body or a bad daysOfSupply
value is logged and skipped.  The state is (output binding, orders table):
`outputEvent.set` REPLACES the single output value, so a later triggering
event overwrites the command of an earlier one.  `ids k` is the k-th pair
of uuid values (order suffix, command id); the insert runs only when the
database connection succeeded (`connOk`), with hardcoded quantity 50 and
priority URGENT. -/
def mainGo (ids : ℕ → String × String) (connOk : Bool) :
    List RawEvent → ℕ → Option CommandMsg × List ServerOrderRow →
      Option CommandMsg × List ServerOrderRow
  | [], _, st => st
  | .malformed _ :: rest, k, st => mainGo ids connOk rest k st
  | .parsed data :: rest, k, st =>
    match pyFloat (data.daysOfSupply.getD (.int 99)) with
    | .error _ => mainGo ids connOk rest k st
    | .ok days =>
      if days < 2 then
        let order_id := "ORD-SRV-" ++ (ids k).1
        let orders :=
          if connOk then
            st.2 ++ [{ order_id := order_id, hospital_id := data.hospitalId,
                       product_code := data.productCode, order_quantity := 50,
                       priority := "URGENT" }]
          else st.2
        mainGo ids connOk rest (k + 1)
          (some { commandId := (ids k).2, commandType := "ProcessOrder",
                  orderId := order_id, details := data }, orders)
      else
        mainGo ids connOk rest k st

/-- main of StockEventProcessor/init: starts with an empty output binding
and whatever the orders table held is kept abstract (only the appended rows
are modelled). -/
def main (ids : ℕ → String × String) (connOk : Bool) (events : List RawEvent) :
    Option CommandMsg × List ServerOrderRow :=
  mainGo ids connOk events 0 (none, [])

/-- The latest event of the batch that parses and triggers (days of supply
below 2.0): the one whose command survives the overwriting output binding. -/
def triggersServer (ev : RawEvent) : Option InventoryEvent :=
  match ev with
  | .malformed _ => none
  | .parsed d =>
    match pyFloat (d.daysOfSupply.getD (.int 99)) with
    | .ok days => if days < 2 then some d else none
    | .error _ => none

def lastTrigger (events : List RawEvent) : Option InventoryEvent :=
  events.foldl
    (fun acc ev => match triggersServer ev with | some d => some d | none => acc) none

end StockEventProcessor

/-- The inbound SOAP StockUpdateRequest payload of real_soap_service.py
(all fields required by the schema). -/
structure StockUpdateRequest where
  hospitalId : String
  productCode : String
  currentStockUnits : ℤ
  dailyConsumptionUnits : ℤ
  daysOfSupply : ℚ
  timestamp : String
deriving DecidableEq

/-- The StockUpdateResult the SOAP service returns; orderTriggered and
orderId stay unset (none) on the failure path. -/
structure StockUpdateResult where
  success : Bool
  message : String
  orderTriggered : Option Bool
  orderId : Option String
deriving DecidableEq

/-- A row written by the synchronous handler, one constructor per table. -/
inductive DbRow
  | stockEvent (event_id hospital_id product_code : String)
      (current_stock daily_consumption : ℤ) (days_of_supply : ℚ)
  | orderRow (order_id hospital_id product_code : String)
      (order_quantity : ℤ) (priority : Option String)
  | decisionLog (decision_id event_id : String) (order_id : Option String)
      (decision_type reason : String) (days_of_supply threshold_used : ℚ)
  | esbLog (log_id message_id source_hospital_id : String)
deriving DecidableEq

def isOrderRow : DbRow → Bool
  | .orderRow .. => true
  | _ => false

def isOrderCreatedLog : DbRow → Bool
  | .decisionLog _ _ _ t _ _ _ => t == "ORDER_CREATED"
  | _ => false

namespace StockUpdateServiceImpl

/-- The response built by the generic exception handler of StockUpdate:
success false with a fixed message that names no internal detail. -/
def failResult : StockUpdateResult :=
  { success := false, message := "Internal Server Error",
    orderTriggered := none, orderId := none }

/-- StockUpdate of real_soap_service.py (lines 129-186), with its external
effects made explicit.  `connFails` says whether get_db_connection raises;
`oracle i` says whether the i-th database operation of this call (the
inserts in program order, then the commit) raises.  All inserts go to one
cursor of one connection and become visible only at the single commit; any
exception rolls the transaction back, so the committed store `db` is
returned unchanged and the generic failure response is produced.  `ids`
supplies the uuid values in order of generation and `today` the date
component of generated order ids. -/
def StockUpdate (connFails : Bool) (oracle : ℕ → Bool) (ids : ℕ → String)
    (today : String) (request : StockUpdateRequest) (db : List DbRow) :
    StockUpdateResult × List DbRow :=
  if connFails then (failResult, db) else
  if oracle 0 then (failResult, db) else
  let event_id := "evt-" ++ ids 0
  let staged0 : List DbRow :=
    [.stockEvent event_id request.hospitalId request.productCode
      request.currentStockUnits request.dailyConsumptionUnits request.daysOfSupply]
  let decision := DecisionEngine.evaluate request.daysOfSupply
    request.dailyConsumptionUnits request.currentStockUnits
  if decision.should_order then
    if oracle 1 then (failResult, db) else
    let order_id := "ORD-" ++ today ++ "-" ++ ids 1
    let staged1 := staged0 ++
      [.orderRow order_id request.hospitalId request.productCode
        decision.order_quantity decision.priority]
    if oracle 2 then (failResult, db) else
    let staged2 := staged1 ++
      [.decisionLog ("dec-" ++ ids 2) event_id (some order_id) "ORDER_CREATED"
        decision.reason request.daysOfSupply DecisionEngine.THRESHOLD_CRITICAL]
    if oracle 3 then (failResult, db) else
    let staged3 := staged2 ++ [.esbLog ("log-" ++ ids 3) event_id request.hospitalId]
    if oracle 4 then (failResult, db) else
    ({ success := true, message := "Order created: " ++ order_id,
       orderTriggered := some true, orderId := some order_id }, db ++ staged3)
  else
    if oracle 1 then (failResult, db) else
    let staged1 := staged0 ++
      [.decisionLog ("dec-" ++ ids 1) event_id none "ORDER_SKIPPED"
        decision.reason request.daysOfSupply DecisionEngine.THRESHOLD_CRITICAL]
    if oracle 2 then (failResult, db) else
    let staged2 := staged1 ++ [.esbLog ("log-" ++ ids 2) event_id request.hospitalId]
    if oracle 3 then (failResult, db) else
    ({ success := true, message := "Stock adequate",
       orderTriggered := some false, orderId := none }, db ++ staged2)

end StockUpdateServiceImpl

/-- A stock reading delivered on the event path with its numeric fields
present and no threshold override (the engine then uses the 2.0 default). -/
def mkReading (days : ℚ) (daily stock : ℤ) : InventoryEvent :=
  { daysOfSupply := some (.float days),
    dailyConsumptionUnits := some (.int daily),
    currentStockUnits := some (.int stock) }

/-- A stock reading delivered on the event path with an explicit threshold. -/
def mkReadingT (days threshold : ℚ) (daily stock : ℤ) : InventoryEvent :=
  { daysOfSupply := some (.float days), threshold := some (.float threshold),
    dailyConsumptionUnits := some (.int daily),
    currentStockUnits := some (.int stock) }

/-- C1 counterexample: at daysOfSupply 5.0, consumption 100, stock 500
(threshold defaulted to 2.0) both engines decide not to order, but their
reason texts differ, so the decisions are not identical as claimed. -/
theorem c1_reason_texts_differ :
    (DecisionEngine.evaluate 5 100 500).reason = "Adequate stock: 5.0 days" ∧
    ServerlessDecisionEngine.evaluate (mkReading 5 100 500) =
      .ok { should_order := false, priority := none, order_quantity := 0,
            reason := "Stock levels adequate: 5.0 days of supply",
            days_of_supply := 5, threshold_used := 2 } ∧
    "Adequate stock: 5.0 days" ≠ "Stock levels adequate: 5.0 days of supply" := by
  decide

/-- C1 amended: for every stock reading with the threshold defaulted to 2.0,
the synchronous-path engine and the event-path engine agree on shouldOrder,
priority and orderQuantity; the reason texts are differently worded. -/
theorem c1_transport_equivalence (days : ℚ) (daily stock : ℤ) :
    ∃ d, ServerlessDecisionEngine.evaluate (mkReading days daily stock) = .ok d ∧
      d.should_order = (DecisionEngine.evaluate days daily stock).should_order ∧
      d.priority = (DecisionEngine.evaluate days daily stock).priority ∧
      d.order_quantity = (DecisionEngine.evaluate days daily stock).order_quantity := by
  simp only [ServerlessDecisionEngine.evaluate, mkReading, pyFloat, pyInt, Option.getD,
    ServerlessDecisionEngine.THRESHOLD_CRITICAL, ServerlessDecisionEngine.THRESHOLD_URGENT,
    ServerlessDecisionEngine.RESTOCK_DAYS, DecisionEngine.evaluate,
    DecisionEngine.THRESHOLD_CRITICAL, DecisionEngine.THRESHOLD_URGENT,
    DecisionEngine.RESTOCK_DAYS]
  split_ifs <;> exact ⟨_, rfl, rfl, rfl, rfl⟩

/-- C2: on every triggering input the order quantity of the event-path
engine is max(dailyConsumption * 7 - currentStock, dailyConsumption); the
synchronous engine computes the same quantity whenever it triggers (its
threshold is fixed at 2.0) and 0 otherwise. -/
theorem c2_order_quantity_formula (days threshold : ℚ) (daily stock : ℤ)
    (hd : 0 ≤ daily) (hs : 0 ≤ stock) (ht : days < threshold) :
    (∃ d, ServerlessDecisionEngine.evaluate (mkReadingT days threshold daily stock) = .ok d ∧
      d.order_quantity = max (daily * 7 - stock) daily) ∧
    (DecisionEngine.evaluate days daily stock).order_quantity =
      (if days < 2 then max (daily * 7 - stock) daily else 0) := by
  simp only [ServerlessDecisionEngine.evaluate, mkReadingT, pyFloat, pyInt, Option.getD,
    ServerlessDecisionEngine.THRESHOLD_URGENT, ServerlessDecisionEngine.RESTOCK_DAYS,
    DecisionEngine.evaluate, DecisionEngine.THRESHOLD_CRITICAL,
    DecisionEngine.THRESHOLD_URGENT, DecisionEngine.RESTOCK_DAYS, if_pos ht]
  constructor
  · split_ifs <;> exact ⟨_, rfl, rfl⟩
  · split_ifs <;> rfl

/-- C2 witness at scenario A of the spec: daysOfSupply 1.33 (as 133/100),
threshold 2.0, consumption 30, stock 40. -/
theorem c2_order_quantity_formula_witness :
    (∃ d, ServerlessDecisionEngine.evaluate
        (mkReadingT (Rat.divInt 133 100) 2 30 40) = .ok d ∧
      d.order_quantity = max (30 * 7 - 40) 30) ∧
    (DecisionEngine.evaluate (Rat.divInt 133 100) 30 40).order_quantity =
      (if (Rat.divInt 133 100 : ℚ) < 2 then max (30 * 7 - 40) 30 else 0) :=
  c2_order_quantity_formula (Rat.divInt 133 100) 2 30 40
    (by decide) (by decide) (by decide)

/-- C3: on every triggering input the priority depends only on the
days-of-supply value: URGENT below 1.0, HIGH from 1.0 up to the threshold;
the synchronous engine (fixed threshold 2.0) follows the same rule and
returns no priority when it does not trigger. -/
theorem c3_priority_from_days_only (days threshold : ℚ) (daily stock : ℤ)
    (ht : days < threshold) :
    (∃ d, ServerlessDecisionEngine.evaluate (mkReadingT days threshold daily stock) = .ok d ∧
      d.priority = (if days < 1 then some "URGENT" else some "HIGH") ∧
      d.should_order = true) ∧
    (DecisionEngine.evaluate days daily stock).priority =
      (if days < 2 then (if days < 1 then some "URGENT" else some "HIGH") else none) := by
  simp only [ServerlessDecisionEngine.evaluate, mkReadingT, pyFloat, pyInt, Option.getD,
    ServerlessDecisionEngine.THRESHOLD_URGENT, ServerlessDecisionEngine.RESTOCK_DAYS,
    DecisionEngine.evaluate, DecisionEngine.THRESHOLD_CRITICAL,
    DecisionEngine.THRESHOLD_URGENT, DecisionEngine.RESTOCK_DAYS, if_pos ht]
  constructor
  · split_ifs <;> exact ⟨_, rfl, rfl, rfl⟩
  · split_ifs <;> rfl

/-- C3 witness at scenario B of the spec: daysOfSupply 0.5, threshold 2.0,
consumption 50, stock 25, an URGENT case. -/
theorem c3_priority_from_days_only_witness :
    (∃ d, ServerlessDecisionEngine.evaluate
        (mkReadingT (Rat.divInt 1 2) 2 50 25) = .ok d ∧
      d.priority = (if (Rat.divInt 1 2 : ℚ) < 1 then some "URGENT" else some "HIGH") ∧
      d.should_order = true) ∧
    (DecisionEngine.evaluate (Rat.divInt 1 2) 50 25).priority =
      (if (Rat.divInt 1 2 : ℚ) < 2 then
        (if (Rat.divInt 1 2 : ℚ) < 1 then some "URGENT" else some "HIGH") else none) :=
  c3_priority_from_days_only (Rat.divInt 1 2) 2 50 25 (by decide)

/-- C4 counterexample: at daysOfSupply 5.0 (at or above the threshold) the
synchronous engine does return shouldOrder false, quantity 0 and no
priority, but its reason string is "Adequate stock: 5.0 days", not the
claimed "Stock levels adequate: 5.0 days of supply". -/
theorem c4_soap_reason_text_differs :
    DecisionEngine.THRESHOLD_CRITICAL ≤ 5 ∧
    (DecisionEngine.evaluate 5 100 500).should_order = false ∧
    (DecisionEngine.evaluate 5 100 500).reason = "Adequate stock: 5.0 days" ∧
    (DecisionEngine.evaluate 5 100 500).reason ≠
      "Stock levels adequate: 5.0 days of supply" := by
  decide

/-- C4 amended: for daysOfSupply at or above the threshold both engines
return shouldOrder false, orderQuantity 0 and priority NONE (the
synchronous engine's threshold being fixed at 2.0); the event-path engine's
reason is exactly "Stock levels adequate: ... days of supply" with the
value to one decimal place, while the synchronous engine words it
"Adequate stock: ... days". -/
theorem c4_adequate_stock_decision (days threshold : ℚ) (daily stock : ℤ)
    (ht : threshold ≤ days) :
    (∃ d, ServerlessDecisionEngine.evaluate (mkReadingT days threshold daily stock) = .ok d ∧
      d.should_order = false ∧ d.order_quantity = 0 ∧ d.priority = none ∧
      d.reason = "Stock levels adequate: " ++ fmt1 days ++ " days of supply") ∧
    (2 ≤ days →
      (DecisionEngine.evaluate days daily stock).should_order = false ∧
      (DecisionEngine.evaluate days daily stock).order_quantity = 0 ∧
      (DecisionEngine.evaluate days daily stock).priority = none ∧
      (DecisionEngine.evaluate days daily stock).reason =
        "Adequate stock: " ++ fmt1 days ++ " days") := by
  constructor
  · simp only [ServerlessDecisionEngine.evaluate, mkReadingT, pyFloat, pyInt, Option.getD,
      if_neg (not_lt.mpr ht)]
    exact ⟨_, rfl, rfl, rfl, rfl, rfl⟩
  · intro h2
    have hn : ¬days < DecisionEngine.THRESHOLD_CRITICAL := by
      simp only [DecisionEngine.THRESHOLD_CRITICAL]
      exact not_lt.mpr h2
    unfold DecisionEngine.evaluate
    rw [if_neg hn]
    exact ⟨rfl, rfl, rfl, rfl⟩

/-- C4 witness at scenario C of the spec: daysOfSupply 5.0, threshold 2.0,
consumption 100, stock 500. -/
theorem c4_adequate_stock_decision_witness :
    (∃ d, ServerlessDecisionEngine.evaluate (mkReadingT 5 2 100 500) = .ok d ∧
      d.should_order = false ∧ d.order_quantity = 0 ∧ d.priority = none ∧
      d.reason = "Stock levels adequate: " ++ fmt1 5 ++ " days of supply") ∧
    ((2 : ℚ) ≤ 5 →
      (DecisionEngine.evaluate 5 100 500).should_order = false ∧
      (DecisionEngine.evaluate 5 100 500).order_quantity = 0 ∧
      (DecisionEngine.evaluate 5 100 500).priority = none ∧
      (DecisionEngine.evaluate 5 100 500).reason =
        "Adequate stock: " ++ fmt1 5 ++ " days") :=
  c4_adequate_stock_decision 5 2 100 500 (by decide)

/-- C5: every decision either engine produces satisfies the invariants:
shouldOrder false forces priority NONE and quantity 0, and priority URGENT
forces shouldOrder true. -/
theorem c5_decision_invariants (days : ℚ) (daily stock : ℤ)
    (ev : InventoryEvent) (d : ServerlessDecision)
    (h : ServerlessDecisionEngine.evaluate ev = .ok d) :
    ((DecisionEngine.evaluate days daily stock).should_order = false →
      (DecisionEngine.evaluate days daily stock).priority = none ∧
      (DecisionEngine.evaluate days daily stock).order_quantity = 0) ∧
    ((DecisionEngine.evaluate days daily stock).priority = some "URGENT" →
      (DecisionEngine.evaluate days daily stock).should_order = true) ∧
    (d.should_order = false → d.priority = none ∧ d.order_quantity = 0) ∧
    (d.priority = some "URGENT" → d.should_order = true) := by
  refine ⟨?_, ?_, ?_, ?_⟩
  · unfold DecisionEngine.evaluate; split_ifs <;> simp
  · unfold DecisionEngine.evaluate; split_ifs <;> simp
  all_goals
    unfold ServerlessDecisionEngine.evaluate at h
    repeat' split at h
    all_goals first
      | exact Except.noConfusion h
      | (injection h with h; subst h; simp)

/-- C5 witness: the synchronous engine at scenario C and the event engine
at scenario C's payload. -/
theorem c5_decision_invariants_witness :
    ((DecisionEngine.evaluate 5 100 500).should_order = false →
      (DecisionEngine.evaluate 5 100 500).priority = none ∧
      (DecisionEngine.evaluate 5 100 500).order_quantity = 0) ∧
    ((DecisionEngine.evaluate 5 100 500).priority = some "URGENT" →
      (DecisionEngine.evaluate 5 100 500).should_order = true) ∧
    (ServerlessDecision.should_order
        { should_order := false, priority := none, order_quantity := 0,
          reason := "Stock levels adequate: 5.0 days of supply",
          days_of_supply := 5, threshold_used := 2 } = false →
      ServerlessDecision.priority
        { should_order := false, priority := none, order_quantity := 0,
          reason := "Stock levels adequate: 5.0 days of supply",
          days_of_supply := 5, threshold_used := 2 } = none ∧
      ServerlessDecision.order_quantity
        { should_order := false, priority := none, order_quantity := 0,
          reason := "Stock levels adequate: 5.0 days of supply",
          days_of_supply := 5, threshold_used := 2 } = 0) ∧
    (ServerlessDecision.priority
        { should_order := false, priority := none, order_quantity := 0,
          reason := "Stock levels adequate: 5.0 days of supply",
          days_of_supply := 5, threshold_used := 2 } = some "URGENT" →
      ServerlessDecision.should_order
        { should_order := false, priority := none, order_quantity := 0,
          reason := "Stock levels adequate: 5.0 days of supply",
          days_of_supply := 5, threshold_used := 2 } = true) :=
  c5_decision_invariants 5 100 500 (mkReading 5 100 500)
    { should_order := false, priority := none, order_quantity := 0,
      reason := "Stock levels adequate: 5.0 days of supply",
      days_of_supply := 5, threshold_used := 2 } (by decide)

/-- C6 counterexample: at daysOfSupply -1 both engines proceed normally and
return a well-formed triggering decision instead of failing closed. -/
theorem c6_negative_input_not_rejected :
    DecisionEngine.evaluate (-1) 10 5 =
      { should_order := true, priority := some "URGENT", order_quantity := 65,
        reason := "CRITICAL: -1.0 days (< 1.0)" } ∧
    ServerlessDecisionEngine.evaluate (mkReading (-1) 10 5) =
      .ok { should_order := true, priority := some "URGENT", order_quantity := 65,
            reason := "CRITICAL: Only -1.0 days of supply remaining (< 1.0 day)",
            days_of_supply := -1, threshold_used := 2 } := by
  decide

/-- C6 amended: neither engine validates its numeric inputs.  A negative
daysOfSupply (with any consumption and stock values, negative ones
included) is processed by the same formulas: both engines trigger an order
and the event engine echoes the negative value unchanged, with no error
raised and no coercion to zero. -/
theorem c6_negative_input_processed (days : ℚ) (daily stock : ℤ)
    (hneg : days < 0) :
    (DecisionEngine.evaluate days daily stock).should_order = true ∧
    (∃ d, ServerlessDecisionEngine.evaluate (mkReading days daily stock) = .ok d ∧
      d.should_order = true ∧ d.days_of_supply = days) := by
  have h2 : days < 2 := hneg.trans (by norm_num)
  have h1 : days < 1 := hneg.trans (by norm_num)
  constructor
  · simp only [DecisionEngine.evaluate, DecisionEngine.THRESHOLD_CRITICAL,
      DecisionEngine.THRESHOLD_URGENT, DecisionEngine.RESTOCK_DAYS,
      if_pos h2, if_pos h1]
  · simp only [ServerlessDecisionEngine.evaluate, mkReading, pyFloat, pyInt, Option.getD,
      ServerlessDecisionEngine.THRESHOLD_CRITICAL, ServerlessDecisionEngine.THRESHOLD_URGENT,
      ServerlessDecisionEngine.RESTOCK_DAYS, if_pos h2, if_pos h1]
    exact ⟨_, rfl, rfl, rfl⟩

/-- C6 witness at daysOfSupply -1, consumption 10, stock 5. -/
theorem c6_negative_input_processed_witness :
    (DecisionEngine.evaluate (-1) 10 5).should_order = true ∧
    (∃ d, ServerlessDecisionEngine.evaluate (mkReading (-1) 10 5) = .ok d ∧
      d.should_order = true ∧ d.days_of_supply = -1) :=
  c6_negative_input_processed (-1) 10 5 (by decide)

/-- C9 counterexample: with dailyConsumption 0, currentStock 0 and
daysOfSupply 0 both engines trigger yet compute orderQuantity 0, and the
command built from that decision carries quantity 0, not a positive one. -/
theorem c9_zero_consumption_zero_quantity :
    (DecisionEngine.evaluate 0 0 0).should_order = true ∧
    (DecisionEngine.evaluate 0 0 0).order_quantity = 0 ∧
    (ServerlessDecisionEngine.evaluate (mkReading 0 0 0)).map
      (fun d => (d.should_order, d.order_quantity,
        (OrderCommandGenerator.create_command (mkReading 0 0 0) d "cmd-1" "ORD-1" 0).orderQuantity))
      = .ok (true, 0, 0) := by
  decide

/-- C9 amended: on every triggering input with non-negative consumption and
stock, the order quantity is at least one day's consumption (so it is
positive whenever the consumption is positive, but it is 0 when the
consumption is 0), and the generated command carries the decision's
quantity unchanged. -/
theorem c9_order_quantity_at_least_daily (days threshold : ℚ) (daily stock : ℤ)
    (cid oid : String) (now : ℤ)
    (hd : 0 ≤ daily) (hs : 0 ≤ stock) (ht : days < threshold) :
    (days < 2 → daily ≤ (DecisionEngine.evaluate days daily stock).order_quantity) ∧
    (∃ d, ServerlessDecisionEngine.evaluate (mkReadingT days threshold daily stock) = .ok d ∧
      daily ≤ d.order_quantity ∧
      (0 < daily → 0 < d.order_quantity) ∧
      (OrderCommandGenerator.create_command (mkReadingT days threshold daily stock)
        d cid oid now).orderQuantity = d.order_quantity) := by
  constructor
  · intro h2
    simp only [DecisionEngine.evaluate, DecisionEngine.THRESHOLD_CRITICAL,
      DecisionEngine.THRESHOLD_URGENT, DecisionEngine.RESTOCK_DAYS, if_pos h2]
    split_ifs <;> exact le_max_right _ _
  · simp only [ServerlessDecisionEngine.evaluate, mkReadingT, pyFloat, pyInt, Option.getD,
      ServerlessDecisionEngine.THRESHOLD_URGENT, ServerlessDecisionEngine.RESTOCK_DAYS,
      if_pos ht]
    split_ifs <;>
      exact ⟨_, rfl, le_max_right _ _,
        fun h => lt_of_lt_of_le h (le_max_right _ _), rfl⟩

/-- C9 witness at scenario B of the spec: daysOfSupply 0.5, threshold 2.0,
consumption 50, stock 25. -/
theorem c9_order_quantity_at_least_daily_witness :
    ((Rat.divInt 1 2 : ℚ) < 2 →
      (50 : ℤ) ≤ (DecisionEngine.evaluate (Rat.divInt 1 2) 50 25).order_quantity) ∧
    (∃ d, ServerlessDecisionEngine.evaluate
        (mkReadingT (Rat.divInt 1 2) 2 50 25) = .ok d ∧
      (50 : ℤ) ≤ d.order_quantity ∧
      ((0 : ℤ) < 50 → 0 < d.order_quantity) ∧
      (OrderCommandGenerator.create_command (mkReadingT (Rat.divInt 1 2) 2 50 25)
        d "cmd-1" "ORD-1" 0).orderQuantity = d.order_quantity) :=
  c9_order_quantity_at_least_daily (Rat.divInt 1 2) 2 50 25 "cmd-1" "ORD-1" 0
    (by decide) (by decide) (by decide)

/-- C10 counterexample: an event without a daysOfSupply field but with
threshold 1000 makes the engine decide shouldOrder true (the 999 default is
not above this threshold), so the claimed shouldOrder false does not hold
for every payload lacking the field. -/
theorem c10_missing_days_can_still_trigger :
    InventoryEvent.daysOfSupply
      { threshold := some (.float 1000), dailyConsumptionUnits := some (.int 10),
        currentStockUnits := some (.int 5) } = none ∧
    (ServerlessDecisionEngine.evaluate
      { threshold := some (.float 1000), dailyConsumptionUnits := some (.int 10),
        currentStockUnits := some (.int 5) }).map
      (fun d => (d.should_order, d.days_of_supply)) = .ok (true, 999) := by
  decide

/-- C10 amended: absent fields are defaulted, never rejected: a missing
daysOfSupply is read as 999 and a missing threshold as 2.0.  Whenever the
effective threshold is at most 999 (the default 2.0 included), a payload
lacking daysOfSupply yields shouldOrder false with orderQuantity 0. -/
theorem c10_missing_fields_defaulted (threshold : ℚ) (daily stock : ℤ)
    (hth : threshold ≤ 999) :
    (∃ d, ServerlessDecisionEngine.evaluate
        { threshold := some (.float threshold),
          dailyConsumptionUnits := some (.int daily),
          currentStockUnits := some (.int stock) } = .ok d ∧
      d.days_of_supply = 999 ∧ d.threshold_used = threshold ∧
      d.should_order = false ∧ d.order_quantity = 0) ∧
    (∃ d, ServerlessDecisionEngine.evaluate
        { dailyConsumptionUnits := some (.int daily),
          currentStockUnits := some (.int stock) } = .ok d ∧
      d.days_of_supply = 999 ∧ d.threshold_used = 2 ∧
      d.should_order = false ∧ d.order_quantity = 0) := by
  have h999 : ((999 : ℤ) : ℚ) = (999 : ℚ) := by norm_num
  constructor
  · have hlt : ¬((999 : ℤ) : ℚ) < threshold := by
      rw [h999]; exact not_lt.mpr hth
    simp only [ServerlessDecisionEngine.evaluate, pyFloat, pyInt, Option.getD,
      if_neg hlt]
    exact ⟨_, rfl, h999, rfl, rfl, rfl⟩
  · have hlt : ¬((999 : ℤ) : ℚ) < ServerlessDecisionEngine.THRESHOLD_CRITICAL := by
      rw [h999]; norm_num [ServerlessDecisionEngine.THRESHOLD_CRITICAL]
    simp only [ServerlessDecisionEngine.evaluate, pyFloat, pyInt, Option.getD,
      if_neg hlt]
    exact ⟨_, rfl, h999, rfl, rfl, rfl⟩

/-- C10 witness: threshold 2.0 supplied, consumption 10, stock 5. -/
theorem c10_missing_fields_defaulted_witness :
    (∃ d, ServerlessDecisionEngine.evaluate
        { threshold := some (.float 2),
          dailyConsumptionUnits := some (.int 10),
          currentStockUnits := some (.int 5) } = .ok d ∧
      d.days_of_supply = 999 ∧ d.threshold_used = 2 ∧
      d.should_order = false ∧ d.order_quantity = 0) ∧
    (∃ d, ServerlessDecisionEngine.evaluate
        { dailyConsumptionUnits := some (.int 10),
          currentStockUnits := some (.int 5) } = .ok d ∧
      d.days_of_supply = 999 ∧ d.threshold_used = 2 ∧
      d.should_order = false ∧ d.order_quantity = 0) :=
  c10_missing_fields_defaulted 2 10 5 (by decide)

/-- The fields of an outbound command that come from its event and its
decision (the remaining fields are generated ids and times). -/
def cmdKey (c : OrderCommand) : Option String × Option String × ℤ × Option String :=
  (c.hospitalId, c.productCode, c.orderQuantity, c.priority)

/-- The events of a batch whose evaluation succeeds and triggers, each with
its decision, in arrival order. -/
def triggeredDecisions (events : List InventoryEvent) :
    List (InventoryEvent × ServerlessDecision) :=
  events.filterMap (fun e =>
    match ServerlessDecisionEngine.evaluate e with
    | .ok d => if d.should_order then some (e, d) else none
    | .error _ => none)

def decKey (p : InventoryEvent × ServerlessDecision) :
    Option String × Option String × ℤ × Option String :=
  (p.1.hospitalId, p.1.productCode, p.2.order_quantity, p.2.priority)

theorem processEventsGo_ok (ids : ℕ → String × String) (now : ℤ) :
    ∀ (events : List InventoryEvent) (k : ℕ) (acc : List OrderCommand),
      (∀ e ∈ events, ∃ d, ServerlessDecisionEngine.evaluate e = .ok d) →
      ∃ cmds, processEventsGo ids now events k acc = .ok (acc ++ cmds) ∧
        cmds.map cmdKey = (triggeredDecisions events).map decKey := by
  intro events
  induction events with
  | nil =>
    intro k acc _
    exact ⟨[], by simp [processEventsGo], by simp [triggeredDecisions]⟩
  | cons e rest ih =>
    intro k acc h
    obtain ⟨d, hd⟩ := h e (List.mem_cons_self _ _)
    have hrest : ∀ x ∈ rest, ∃ d, ServerlessDecisionEngine.evaluate x = .ok d :=
      fun x hx => h x (List.mem_cons_of_mem _ hx)
    by_cases hso : d.should_order
    · obtain ⟨cmds, h1, h2⟩ := ih (k + 1)
        (acc ++ [OrderCommandGenerator.create_command e d (ids k).1 (ids k).2 now]) hrest
      refine ⟨OrderCommandGenerator.create_command e d (ids k).1 (ids k).2 now :: cmds,
        ?_, ?_⟩
      · simp only [processEventsGo, hd, if_pos hso, h1, List.append_assoc,
          List.singleton_append]
      · simp only [List.map_cons, h2, triggeredDecisions, List.filterMap_cons, hd,
          if_pos hso]
        rfl
    · obtain ⟨cmds, h1, h2⟩ := ih k acc hrest
      refine ⟨cmds, ?_, ?_⟩
      · simp only [processEventsGo, hd, if_neg hso, h1]
      · simp only [h2, triggeredDecisions, List.filterMap_cons, hd, if_neg hso]

theorem processEventsGo_error (ids : ℕ → String × String) (now : ℤ) :
    ∀ (events : List InventoryEvent) (k : ℕ) (acc : List OrderCommand),
      (∃ e ∈ events, ∃ msg, ServerlessDecisionEngine.evaluate e = .error msg) →
      ∃ msg, processEventsGo ids now events k acc = .error msg := by
  intro events
  induction events with
  | nil => intro k acc h; obtain ⟨x, hx, _⟩ := h; exact absurd hx (List.not_mem_nil x)
  | cons e rest ih =>
    intro k acc h
    obtain ⟨x, hx, msg, hmsg⟩ := h
    rcases List.mem_cons.mp hx with rfl | hxr
    · exact ⟨msg, by simp [processEventsGo, hmsg]⟩
    · cases hev : ServerlessDecisionEngine.evaluate e with
      | error m => exact ⟨m, by simp [processEventsGo, hev]⟩
      | ok d =>
        simp only [processEventsGo, hev]
        by_cases hso : d.should_order
        · rw [if_pos hso]; exact ih _ _ ⟨x, hxr, msg, hmsg⟩
        · rw [if_neg hso]; exact ih _ _ ⟨x, hxr, msg, hmsg⟩

theorem mainGo_output (ids : ℕ → String × String) (connOk : Bool) :
    ∀ (events : List RawEvent) (k : ℕ)
      (st : Option CommandMsg × List ServerOrderRow),
      ((StockEventProcessor.mainGo ids connOk events k st).1).map CommandMsg.details =
        events.foldl (fun acc ev =>
          match StockEventProcessor.triggersServer ev with
          | some d => some d
          | none => acc) (st.1.map CommandMsg.details) := by
  intro events
  induction events with
  | nil => intro k st; rfl
  | cons e rest ih =>
    intro k st
    cases e with
    | malformed body =>
      simp only [StockEventProcessor.mainGo, List.foldl_cons,
        StockEventProcessor.triggersServer, ih]
    | parsed data =>
      cases hev : pyFloat (data.daysOfSupply.getD (.int 99)) with
      | error m =>
        simp only [StockEventProcessor.mainGo, hev, List.foldl_cons,
          StockEventProcessor.triggersServer, ih]
      | ok days =>
        by_cases hlt : days < 2
        · simp only [StockEventProcessor.mainGo, hev, if_pos hlt, List.foldl_cons,
            StockEventProcessor.triggersServer, ih, Option.map_some']
        · simp only [StockEventProcessor.mainGo, hev, if_neg hlt, List.foldl_cons,
            StockEventProcessor.triggersServer, ih]

/-- C7 counterexample: a batch of a malformed entry followed by a valid
triggering event.  The claim expects the malformed entry to be skipped and
the valid event's command emitted; process_events instead aborts the whole
batch with the conversion error, emitting nothing. -/
theorem c7_malformed_entry_aborts_batch :
    (ServerlessDecisionEngine.evaluate (mkReading 1 30 40)).map
      (fun d => d.should_order) = .ok true ∧
    process_events (fun _ => ("cmd-1", "ORD-1")) 0
      [{ daysOfSupply := some (.str "not-a-number") }, mkReading 1 30 40] =
      .error "could not convert string to float: not-a-number" := by
  decide

/-- C7 amended: process_events visits events in arrival order and returns
one outbound batch holding exactly one command per triggering event (in
order, carrying that event's fields and its decision's quantity and
priority) when every entry of the batch is well formed; but an entry whose
evaluation raises aborts the whole batch and no commands are returned.  The
deployed Event Hub handler does skip malformed entries, but its output
binding is overwritten per triggering event, so at most one command -- the
latest triggering event's -- is emitted per inbound batch. -/
theorem c7_batch_processing (ids : ℕ → String × String) (now : ℤ)
    (events : List InventoryEvent) (ids2 : ℕ → String × String)
    (connOk : Bool) (body : String) (revents : List RawEvent) :
    ((∀ e ∈ events, ∃ d, ServerlessDecisionEngine.evaluate e = .ok d) →
      ∃ cmds, process_events ids now events = .ok cmds ∧
        cmds.map cmdKey = (triggeredDecisions events).map decKey) ∧
    ((∃ e ∈ events, ∃ msg, ServerlessDecisionEngine.evaluate e = .error msg) →
      ∃ msg, process_events ids now events = .error msg) ∧
    (StockEventProcessor.main ids2 connOk (.malformed body :: revents) =
      StockEventProcessor.main ids2 connOk revents) ∧
    ((StockEventProcessor.main ids2 connOk revents).1).map CommandMsg.details =
      StockEventProcessor.lastTrigger revents := by
  refine ⟨?_, ?_, rfl, ?_⟩
  · intro h
    obtain ⟨cmds, h1, h2⟩ := processEventsGo_ok ids now events 0 [] h
    exact ⟨cmds, by simpa [process_events] using h1, h2⟩
  · intro h
    exact processEventsGo_error ids now events 0 [] h
  · simpa [StockEventProcessor.main, StockEventProcessor.lastTrigger] using
      mainGo_output ids2 connOk revents 0 (none, [])

/-- C8: whatever combination of external failures occurs (connection
failure, any insert or the commit raising), the synchronous handler commits
the order row and its ORDER_CREATED decision-log row atomically: the set of
rows the call adds to the store contains an order exactly when it contains
an ORDER_CREATED decision log.  Whenever the response reports failure it is
exactly the generic failure response (success false, message "Internal
Server Error", no internal detail), and the handler is a total function, so
the call always completes. -/
theorem c8_atomic_order_and_log (connFails : Bool) (oracle : ℕ → Bool)
    (ids : ℕ → String) (today : String) (request : StockUpdateRequest)
    (db : List DbRow) :
    ∃ new,
      (StockUpdateServiceImpl.StockUpdate connFails oracle ids today request db).2 =
        db ++ new ∧
      new.any isOrderRow = new.any isOrderCreatedLog ∧
      ((StockUpdateServiceImpl.StockUpdate connFails oracle ids today request db).1.success
          = false →
        (StockUpdateServiceImpl.StockUpdate connFails oracle ids today request db).1 =
          StockUpdateServiceImpl.failResult) := by
  simp only [StockUpdateServiceImpl.StockUpdate]
  split_ifs <;>
    first
      | exact ⟨[], by simp, rfl, fun _ => rfl⟩
      | (refine ⟨_, rfl, ?_, ?_⟩ <;>
          simp [isOrderRow, isOrderCreatedLog, StockUpdateServiceImpl.failResult])
